import Mathlib

/-!
Shallow embedding of the IMSC reader core
(src/src/main/python/ttconv/imsc/imsc_reader.py) and proofs about it.

The reader walks a namespace-aware XML element tree and builds a document
model.  Stateful Python code is embedded as explicit state passing; the
logging side effects are embedded as an explicit list of log entries
returned alongside each result; the one uncaught exception site (style
value extraction) is embedded with the Except monad, so that a failing
extraction propagates to the entry point exactly as the Python exception
does (the source contains no try/except).
-/

/-- A namespace-aware XML element as handed to the reader by the XML
parser: a qualified tag, the ordered attribute map (qualified attribute
name to raw text, keys unique) and the ordered list of child elements.
Qualified names follow the parser's convention: a left brace, the
namespace URI, a right brace, then the local name. -/
inductive XmlElem where
  | elem (tag : String) (attrib : List (String × String)) (children : List XmlElem)

def XmlElem.tag : XmlElem → String
  | .elem t _ _ => t

def XmlElem.attrib : XmlElem → List (String × String)
  | .elem _ a _ => a

def XmlElem.children : XmlElem → List XmlElem
  | .elem _ _ c => c

/-- Severity levels of the diagnostics sink (logging module). -/
inductive LogLevel where
  | warning
  | error
  | fatal
deriving DecidableEq

/-- One emitted diagnostic: severity and message. -/
structure LogEntry where
  level : LogLevel
  msg : String
deriving DecidableEq

/-- The ordered list of diagnostics emitted during (part of) a conversion. -/
abbrev Log := List LogEntry

/-- Modelled from the spec: the whitespace-handling enumeration of the
document-model layer (ttconv.model is not under src); the source
references model.WhiteSpaceHandling.DEFAULT and validates xml:space
against the enumeration's members. -/
inductive WhiteSpaceHandling where
  | DEFAULT
  | PRESERVE
deriving DecidableEq

/-- Modelled from the spec: the enumeration member named by an xml:space
attribute value, none when the value is not a recognized member. -/
def ws_of_string (s : String) : Option WhiteSpaceHandling :=
  if s = "default" then some .DEFAULT
  else if s = "preserve" then some .PRESERVE
  else none

/-- Modelled from the spec: the length units of the model layer's
LengthType.LengthUnits, constructed by value from the unit token matched by the
line-height grammar. -/
inductive LengthUnits where
  | px
  | em
  | c
  | percent
  | rh
  | rw
deriving DecidableEq

/-- Modelled from the spec: model.LengthType, a typed style value holding
a numeric magnitude and a unit.  The Python magnitude is a float produced
by float() on a decimal string; it is embedded as the exact rational value
of that decimal string. -/
structure LengthType where
  magnitude : ℚ
  unit : LengthUnits
deriving DecidableEq

/-- Identifier of a model style property; the registry of this source file
holds exactly one, model.StyleProperties.LineHeight. -/
inductive StylePropId where
  | lineHeight
deriving DecidableEq

/-- A typed style value as stored on a node by set_style. -/
inductive StyleValue where
  | length (v : LengthType)
deriving DecidableEq

/-- Modelled from the spec: a Region of the document-model layer — a
required id, resolved space and lang, and its style values. -/
structure Region where
  rid : String
  space : WhiteSpaceHandling
  lang : String
  styles : List (StylePropId × StyleValue)
deriving DecidableEq

/-- The kind of a constructed content node; the source's dispatch
constructs model.Body, model.Div or model.P. -/
inductive ContentKind where
  | body
  | div
  | p
deriving DecidableEq

/-- Modelled from the spec: a content element of the document-model layer:
its kind, its ordered children, an optional non-owning region reference,
its style values, and the space/lang values settable through
set_space/set_lang (none when never set). -/
inductive ContentElement where
  | node (kind : ContentKind) (children : List ContentElement)
      (region : Option Region) (styles : List (StylePropId × StyleValue))
      (space : Option WhiteSpaceHandling) (lang : Option String)

def ContentElement.kind : ContentElement → ContentKind
  | .node k _ _ _ _ _ => k

def ContentElement.children : ContentElement → List ContentElement
  | .node _ c _ _ _ _ => c

def ContentElement.region : ContentElement → Option Region
  | .node _ _ r _ _ _ => r

def ContentElement.styles : ContentElement → List (StylePropId × StyleValue)
  | .node _ _ _ s _ _ => s

def ContentElement.space : ContentElement → Option WhiteSpaceHandling
  | .node _ _ _ _ sp _ => sp

def ContentElement.lang : ContentElement → Option String
  | .node _ _ _ _ _ lg => lg

/-- Modelled from the spec: the document-model layer's Document — it owns
the region map (id to Region; put with an existing id overwrites) and at
most one body content element. -/
structure Document where
  regions : List (String × Region)
  body : Option ContentElement

/-- The empty Document created at the start of tt processing. -/
def empty_document : Document := ⟨[], none⟩

/-- Python-dict upsert into the region map: an existing key keeps its
position and is overwritten, a new key is appended. -/
def upsert_region : List (String × Region) → Region → List (String × Region)
  | [], r => [(r.rid, r)]
  | (k, v) :: rest, r =>
    if k = r.rid then (k, r) :: rest else (k, v) :: upsert_region rest r

/-- Modelled from the spec: Document.put_region. -/
def put_region (d : Document) (r : Region) : Document :=
  { d with regions := upsert_region d.regions r }

/-- Modelled from the spec: Document.get_region — lookup by id, none when
absent. -/
def get_region (d : Document) (rid : String) : Option Region :=
  d.regions.lookup rid

/-- Modelled from the spec: Document.set_body. -/
def set_body (d : Document) (b : Option ContentElement) : Document :=
  { d with body := b }

/-- Modelled from the spec: node.set_style — at most one value per
property; setting an already-set property overwrites it. -/
def set_style : List (StylePropId × StyleValue) → StylePropId → StyleValue →
    List (StylePropId × StyleValue)
  | [], p, v => [(p, v)]
  | (q, w) :: rest, p, v =>
    if q = p then (p, v) :: rest else (q, w) :: set_style rest p v

/- Qualified names.  The source builds them from the namespace constants
with f-strings that wrap the namespace in braces, e.g.
BODY_ELEMENT_QNAME = "{" + TTML_NS + "}body"; the computed literals are
used here. -/

def TTML_NS : String := "http://www.w3.org/ns/ttml"

def TTP_NS : String := "http://www.w3.org/ns/ttml#parameter"

def BODY_ELEMENT_QNAME : String := "\x7bhttp://www.w3.org/ns/ttml\x7dbody"

def DIV_ELEMENT_QNAME : String := "\x7bhttp://www.w3.org/ns/ttml\x7ddiv"

def P_ELEMENT_QNAME : String := "\x7bhttp://www.w3.org/ns/ttml\x7dp"

/-- Defined by the source (line 40) but never consulted by the content
dispatch. -/
def SPAN_ELEMENT_QNAME : String := "\x7bhttp://www.w3.org/ns/ttml\x7dspan"

def TT_ELEMENT_QNAME : String := "\x7bhttp://www.w3.org/ns/ttml\x7dtt"

def HEAD_ELEMENT_QNAME : String := "\x7bhttp://www.w3.org/ns/ttml\x7dhead"

def LAYOUT_ELEMENT_QNAME : String := "\x7bhttp://www.w3.org/ns/ttml\x7dlayout"

def REGION_ELEMENT_QNAME : String := "\x7bhttp://www.w3.org/ns/ttml\x7dregion"

def XMLID_ATTRIB_QNAME : String :=
  "\x7bhttp://www.w3.org/XML/1998/namespace\x7did"

def XMLLANG_ATTRIB_QNAME : String :=
  "\x7bhttp://www.w3.org/XML/1998/namespace\x7dlang"

def XMLSPACE_ATTRIB_QNAME : String :=
  "\x7bhttp://www.w3.org/XML/1998/namespace\x7dspace"

/-- The cell-resolution attribute key the source looks up.  The source
(line 381) builds it as an f-string over TTP_NS WITHOUT the surrounding
braces used for every other qualified name in the file, so the literal is
the namespace URI immediately followed by the local name. -/
def CELLRESOLUTION_ATTRIB_QNAME : String :=
  "http://www.w3.org/ns/ttml#parametercellResolution"

/-- The key under which a namespace-aware parse of a ttp:cellResolution
attribute actually appears in the attribute map (brace, namespace URI,
brace, local name — the same convention as the xml:id/xml:lang/xml:space
keys the source looks up). -/
def TTP_CELLRESOLUTION_PARSED_QNAME : String :=
  "\x7bhttp://www.w3.org/ns/ttml#parameter\x7dcellResolution"

/-- Modelled from the spec: the styling namespace of the model property
referenced by the registry (model.StyleProperties.LineHeight.ns and
local_name are in ttconv.model, not under src); the registry key is the
tts:lineHeight qualified name. -/
def LINEHEIGHT_ATTRIB_QNAME : String :=
  "\x7bhttp://www.w3.org/ns/ttml#styling\x7dlineHeight"

/- Qualified-attribute accessors. -/

def get_id (attrib : List (String × String)) : Option String :=
  attrib.lookup XMLID_ATTRIB_QNAME

def get_xml_lang (attrib : List (String × String)) : Option String :=
  attrib.lookup XMLLANG_ATTRIB_QNAME

/-- xml:space accessor: absent gives none; a recognized member parses; an
unrecognized value logs an error and gives none. -/
def get_xml_space (attrib : List (String × String)) :
    Option WhiteSpaceHandling × Log :=
  match attrib.lookup XMLSPACE_ATTRIB_QNAME with
  | none => (none, [])
  | some s =>
    match ws_of_string s with
    | some w => (some w, [])
    | none => (none, [⟨.error, "Bad xml:space value"⟩])

/-- Python `_get_xml_lang(e) or inherited`: the empty string is falsy, so
an empty own value also falls back to the inherited one. -/
def py_or_lang (v : Option String) (inh : String) : String :=
  match v with
  | some s => if s = "" then inh else s
  | none => inh

/- The line-height grammar: the anchored regular expression
((?:+|-)?digits*(.digits+)?)(px|em|c|%|rh|rw) over the whole string. -/

/-- Longest digit prefix of a character list and the rest. -/
def span_digits : List Char → List Char × List Char
  | [] => ([], [])
  | c :: cs =>
    if c.isDigit then
      let r := span_digits cs
      (c :: r.1, r.2)
    else ([], c :: cs)

/-- Numeric value of a digit list. -/
def digits_to_nat (ds : List Char) : ℕ :=
  ds.foldl (fun n c => 10 * n + (c.toNat - 48)) 0

def unit_of_string (s : String) : Option LengthUnits :=
  if s = "px" then some .px
  else if s = "em" then some .em
  else if s = "c" then some .c
  else if s = "%" then some .percent
  else if s = "rh" then some .rh
  else if s = "rw" then some .rw
  else none

/-- Matcher for the anchored length regular expression: the optional sign,
the greedy digit run, the optional dot-digits fraction (taken only when at
least one digit follows the dot, as in the regex), and then the remainder
must be exactly one of the six unit tokens.  Returns the numeric group's
text and the unit. -/
def match_length (s : String) : Option (String × LengthUnits) :=
  let cs := s.data
  let sgn := match cs with
    | '+' :: r => (['+'], r)
    | '-' :: r => (['-'], r)
    | _ => (([] : List Char), cs)
  let ip := span_digits sgn.2
  let frac := match ip.2 with
    | '.' :: r =>
      let fs := span_digits r
      if fs.1 = [] then (([] : List Char), ip.2) else ('.' :: fs.1, fs.2)
    | _ => (([] : List Char), ip.2)
  match unit_of_string frac.2.asString with
  | some u => some ((sgn.1 ++ ip.1 ++ frac.1).asString, u)
  | none => none

/-- Python float() on the numeric group: optional sign, integer digits,
optional fractional part; at least one digit must be present, otherwise a
ValueError is raised.  The value is the exact rational. -/
def py_float (s : String) : Except String ℚ :=
  let cs := s.data
  let sgn : ℚ × List Char := match cs with
    | '+' :: r => (1, r)
    | '-' :: r => (-1, r)
    | _ => (1, cs)
  let ip := span_digits sgn.2
  match ip.2 with
  | [] =>
    if ip.1 = [] then .error "ValueError"
    else .ok (sgn.1 * (digits_to_nat ip.1 : ℚ))
  | '.' :: r =>
    let fp := span_digits r
    if fp.2 = [] then
      if ip.1 = [] ∧ fp.1 = [] then .error "ValueError"
      else .ok (sgn.1 * ((digits_to_nat ip.1 : ℚ) +
        (digits_to_nat fp.1 : ℚ) / (10 ^ fp.1.length)))
    else .error "ValueError"
  | _ => .error "ValueError"

/-- StyleProperties.LineHeight.extract: match the length grammar (no match
raises "Unsupported length"), then build the LengthType from float() on
the numeric group and the unit. -/
def StyleProperties.LineHeight.extract (xml_attrib : String) :
    Except String LengthType :=
  match match_length xml_attrib with
  | none => .error "Unsupported length"
  | some (num, u) => do
    let mag ← py_float num
    .ok ⟨mag, u⟩

/-- The walker's per-element style pass: every attribute is looked up in
the registry (which holds exactly the tts:lineHeight descriptor); a match
extracts — uncaught failure propagates — and set_style stores the value;
any other attribute is ignored silently. -/
def process_style_properties_aux : List (StylePropId × StyleValue) →
    List (String × String) → Except String (List (StylePropId × StyleValue))
  | st, [] => .ok st
  | st, (k, v) :: rest =>
    if k = LINEHEIGHT_ATTRIB_QNAME then do
      let lv ← StyleProperties.LineHeight.extract v
      process_style_properties_aux (set_style st .lineHeight (.length lv)) rest
    else process_style_properties_aux st rest

def process_style_properties (attrib : List (String × String)) :
    Except String (List (StylePropId × StyleValue)) :=
  process_style_properties_aux [] attrib

/-- The walker's region-reference pass: the plain (unqualified) region
attribute, looked up in the Document's current region map; unknown ids log
a warning and leave the element without a region. -/
def process_region_property (doc : Document)
    (attrib : List (String × String)) : Option Region × Log :=
  match attrib.lookup "region" with
  | none => (none, [])
  | some rid =>
    match get_region doc rid with
    | some r => (some r, [])
    | none => (none, [⟨.warning, "Element references unknown region"⟩])

/-- The content dispatch of the source: body, div and p construct nodes;
every other tag (span included) falls through to none. -/
def kind_of_tag (t : String) : Option ContentKind :=
  if t = BODY_ELEMENT_QNAME then some .body
  else if t = DIV_ELEMENT_QNAME then some .div
  else if t = P_ELEMENT_QNAME then some .p
  else none

mutual

/-- The recursive content walker: dispatch on the tag (unrecognized tags
return none immediately, children unvisited); recurse into the children
passing the received inherited space/lang along; then resolve the region
attribute against the current region map, then run the style pass. -/
def process_content_element (doc : Document)
    (inherited_space : WhiteSpaceHandling) (inherited_lang : String) :
    XmlElem → Except String (Option ContentElement × Log)
  | .elem tag attrib children =>
    match kind_of_tag tag with
    | none => .ok (none, [])
    | some k => do
      let kids ← process_content_children doc inherited_space inherited_lang
        children
      let reg := process_region_property doc attrib
      let styles ← process_style_properties attrib
      .ok (some (.node k kids.1 reg.1 styles none none), kids.2 ++ reg.2)

/-- The child loop of the content walker: each non-none child result is
appended in document order. -/
def process_content_children (doc : Document)
    (inherited_space : WhiteSpaceHandling) (inherited_lang : String) :
    List XmlElem → Except String (List ContentElement × Log)
  | [] => .ok ([], [])
  | c :: cs => do
    let r ← process_content_element doc inherited_space inherited_lang c
    let rest ← process_content_children doc inherited_space inherited_lang cs
    .ok ((match r.1 with
          | some el => el :: rest.1
          | none => rest.1), r.2 ++ rest.2)

end

/-- Region element processing: a missing xml:id logs an error and yields
none; otherwise the Region is built carrying own-or-inherited space and
lang and its extracted styles. -/
def process_region_element (inherited_space : WhiteSpaceHandling)
    (inherited_lang : String) (e : XmlElem) :
    Except String (Option Region × Log) :=
  match get_id e.attrib with
  | none => .ok (none, [⟨.error, "All regions must have an id"⟩])
  | some rid => do
    let sp := get_xml_space e.attrib
    let styles ← process_style_properties e.attrib
    .ok (some ⟨rid, sp.1.getD inherited_space,
      py_or_lang (get_xml_lang e.attrib) inherited_lang, styles⟩, sp.2)

/-- The layout child loop: each region-tagged child is processed — with
the layout element's own-or-inherited space/lang recomputed per child, as
the source does inside the loop — and a non-none result is put into the
Document's region map at once; any other child logs a warning. -/
def process_layout_children (lattrib : List (String × String))
    (inherited_space : WhiteSpaceHandling) (inherited_lang : String) :
    Document → List XmlElem → Except String (Document × Log)
  | doc, [] => .ok (doc, [])
  | doc, c :: cs =>
    if c.tag = REGION_ELEMENT_QNAME then do
      let sp := get_xml_space lattrib
      let r ← process_region_element (sp.1.getD inherited_space)
        (py_or_lang (get_xml_lang lattrib) inherited_lang) c
      let doc1 := match r.1 with
        | some reg => put_region doc reg
        | none => doc
      let rest ← process_layout_children lattrib inherited_space
        inherited_lang doc1 cs
      .ok (rest.1, sp.2 ++ r.2 ++ rest.2)
    else do
      let rest ← process_layout_children lattrib inherited_space
        inherited_lang doc cs
      .ok (rest.1, ⟨.warning, "Unexpected child of head element"⟩ :: rest.2)

def process_layout_element (doc : Document)
    (inherited_space : WhiteSpaceHandling) (inherited_lang : String)
    (e : XmlElem) : Except String (Document × Log) :=
  process_layout_children e.attrib inherited_space inherited_lang doc
    e.children

/-- The head child loop: the first layout-tagged child is processed with
the head element's own-or-inherited space/lang, later ones log an error
and are ignored; every other child logs a warning. -/
def process_head_children (hattrib : List (String × String))
    (inherited_space : WhiteSpaceHandling) (inherited_lang : String) :
    Bool → Document → List XmlElem → Except String (Document × Log)
  | _, doc, [] => .ok (doc, [])
  | hasLayout, doc, c :: cs =>
    if c.tag = LAYOUT_ELEMENT_QNAME then
      if hasLayout then do
        let rest ← process_head_children hattrib inherited_space
          inherited_lang hasLayout doc cs
        .ok (rest.1, ⟨.error, "Multiple layout elements"⟩ :: rest.2)
      else do
        let sp := get_xml_space hattrib
        let r ← process_layout_element doc (sp.1.getD inherited_space)
          (py_or_lang (get_xml_lang hattrib) inherited_lang) c
        let rest ← process_head_children hattrib inherited_space
          inherited_lang true r.1 cs
        .ok (rest.1, sp.2 ++ r.2 ++ rest.2)
    else do
      let rest ← process_head_children hattrib inherited_space
        inherited_lang hasLayout doc cs
      .ok (rest.1, ⟨.warning, "Unexpected child of head element"⟩ :: rest.2)

def process_head_element (doc : Document)
    (inherited_space : WhiteSpaceHandling) (inherited_lang : String)
    (e : XmlElem) : Except String (Document × Log) :=
  process_head_children e.attrib inherited_space inherited_lang false doc
    e.children

/-- The mutable cell-resolution state of the conversion context; Python
initializes the fields to the integers 32 and 15 and a successful
cellResolution match assigns the matched strings. -/
inductive CellValue where
  | int (n : ℤ)
  | str (s : String)
deriving DecidableEq

structure CellRes where
  cr_columns : CellValue
  cr_rows : CellValue
deriving DecidableEq

def init_cell_res : CellRes := ⟨.int 32, .int 15⟩

/-- Matcher for the unanchored-at-the-end, anchored-at-the-start regular
expression (digits+) space (digits+) under re.match: a digit run, one
space, a digit run, anything after. -/
def match_cell_resolution (s : String) : Option (String × String) :=
  let d1 := span_digits s.data
  if d1.1 = [] then none
  else
    match d1.2 with
    | ' ' :: r2 =>
      let d2 := span_digits r2
      if d2.1 = [] then none else some (d1.1.asString, d2.1.asString)
    | _ => none

/-- ttp:cellResolution processing: the attribute is looked up under the
source's (braceless) key; absent leaves the context untouched with no
diagnostic; a match assigns the two matched groups (strings); a non-match
logs an error and leaves the context untouched. -/
def process_cell_resolution (cr : CellRes)
    (attrib : List (String × String)) : CellRes × Log :=
  match attrib.lookup CELLRESOLUTION_ATTRIB_QNAME with
  | none => (cr, [])
  | some s =>
    match match_cell_resolution s with
    | some (c, r) => (⟨.str c, .str r⟩, [])
    | none => (cr, [⟨.error, "ttp:cellResolution invalid syntax"⟩])

/-- The tt child loop: the first body-tagged child is converted as a
content element and attached as the Document's body, the first head-tagged
child is processed as the head; later bodies/heads log an error and are
ignored; any other child is ignored silently. -/
def process_tt_children (space : WhiteSpaceHandling) (lang : String) :
    Bool → Bool → Document → List XmlElem → Except String (Document × Log)
  | _, _, doc, [] => .ok (doc, [])
  | hasBody, hasHead, doc, c :: cs =>
    if c.tag = BODY_ELEMENT_QNAME then
      if hasBody then do
        let rest ← process_tt_children space lang hasBody hasHead doc cs
        .ok (rest.1, ⟨.error, "More than one body element present"⟩ :: rest.2)
      else do
        let r ← process_content_element doc space lang c
        let rest ← process_tt_children space lang true hasHead
          (set_body doc r.1) cs
        .ok (rest.1, r.2 ++ rest.2)
    else if c.tag = HEAD_ELEMENT_QNAME then
      if hasHead then do
        let rest ← process_tt_children space lang hasBody hasHead doc cs
        .ok (rest.1, ⟨.error, "More than one head element present"⟩ :: rest.2)
      else do
        let r ← process_head_element doc space lang c
        let rest ← process_tt_children space lang hasBody true r.1 cs
        .ok (rest.1, r.2 ++ rest.2)
    else
      process_tt_children space lang hasBody hasHead doc cs

/-- tt element processing: the Document is created unconditionally first;
then the root's effective space (own attribute validated, else DEFAULT)
and effective lang (own attribute, else empty string with a warning) are
computed, the cell resolution is extracted, and the children are walked. -/
def process_tt_element (e : XmlElem) :
    Except String (Document × CellRes × Log) := do
  let doc := empty_document
  let sp := get_xml_space e.attrib
  let space := sp.1.getD .DEFAULT
  let langOpt := get_xml_lang e.attrib
  let langLog : Log := match langOpt with
    | none => [⟨.warning, "xml:lang not specified on tt"⟩]
    | some _ => []
  let lang := langOpt.getD ""
  let cr := process_cell_resolution init_cell_res e.attrib
  let r ← process_tt_children space lang false false doc e.children
  .ok (r.1, cr.1, sp.2 ++ langLog ++ cr.2 ++ r.2)

/-- The conversion entry point: a non-tt root logs a fatal diagnostic and
yields no document (the context's doc field is still None); otherwise the
tt element is processed and the built Document returned.  A style
extraction failure anywhere below propagates out of this function. -/
def to_model (root : XmlElem) : Except String (Option Document × Log) :=
  if root.tag ≠ TT_ELEMENT_QNAME then
    .ok (none, [⟨.fatal, "A tt element is not the root element"⟩])
  else
    match process_tt_element root with
    | .error e => .error e
    | .ok (doc, _, log) => .ok (some doc, log)

mutual

/-- Modelled from the spec: the content walker as the spec words it —
"recurses into each direct child in document order computing that child's
inherited space/lang as its own attribute (if present) or the value just
received", and the constructed node "carries its own set of style values
and its own resolved space/lang".  Written only to be compared with
process_content_element, which is translated from the source. -/
def process_content_element_spec (doc : Document)
    (inherited_space : WhiteSpaceHandling) (inherited_lang : String) :
    XmlElem → Except String (Option ContentElement × Log)
  | .elem tag attrib children =>
    match kind_of_tag tag with
    | none => .ok (none, [])
    | some k => do
      let own_space := (get_xml_space attrib).1.getD inherited_space
      let own_lang := py_or_lang (get_xml_lang attrib) inherited_lang
      let kids ← process_content_children_spec doc own_space own_lang children
      let reg := process_region_property doc attrib
      let styles ← process_style_properties attrib
      .ok (some (.node k kids.1 reg.1 styles (some own_space)
        (some own_lang)), (get_xml_space attrib).2 ++ kids.2 ++ reg.2)

/-- Modelled from the spec: child loop of the spec-worded walker. -/
def process_content_children_spec (doc : Document)
    (inherited_space : WhiteSpaceHandling) (inherited_lang : String) :
    List XmlElem → Except String (List ContentElement × Log)
  | [] => .ok ([], [])
  | c :: cs => do
    let r ← process_content_element_spec doc inherited_space inherited_lang c
    let rest ← process_content_children_spec doc inherited_space
      inherited_lang cs
    .ok ((match r.1 with
          | some el => el :: rest.1
          | none => rest.1), r.2 ++ rest.2)

end

/-- Projection: the lang field of the top node of a content-walker result,
when the result is a constructed node. -/
def top_result_lang : Except String (Option ContentElement × Log) →
    Option String
  | .ok (some n, _) => n.lang
  | _ => none

/- Concrete input trees used by the theorems below. -/

/-- A p element carrying a tts:lineHeight attribute with the given raw
text. -/
def p_lineheight (v : String) : XmlElem :=
  .elem P_ELEMENT_QNAME [(LINEHEIGHT_ATTRIB_QNAME, v)] []

/-- A tt root (xml:lang "en") whose body holds one p carrying
tts:lineHeight with the given raw text. -/
def tt_lineheight (v : String) : XmlElem :=
  .elem TT_ELEMENT_QNAME [(XMLLANG_ATTRIB_QNAME, "en")]
    [.elem BODY_ELEMENT_QNAME [] [p_lineheight v]]

/-- A body element with its own xml:lang "fr" holding one p. -/
def body_lang_fr : XmlElem :=
  .elem BODY_ELEMENT_QNAME [(XMLLANG_ATTRIB_QNAME, "fr")]
    [.elem P_ELEMENT_QNAME [] []]

/-- A head holding a layout holding one region with xml:id "r1". -/
def head_layout_r1 : XmlElem :=
  .elem HEAD_ELEMENT_QNAME []
    [.elem LAYOUT_ELEMENT_QNAME []
      [.elem REGION_ELEMENT_QNAME [(XMLID_ATTRIB_QNAME, "r1")] []]]

/-- A head holding a layout holding one region with xml:id "r2". -/
def head_layout_r2 : XmlElem :=
  .elem HEAD_ELEMENT_QNAME []
    [.elem LAYOUT_ELEMENT_QNAME []
      [.elem REGION_ELEMENT_QNAME [(XMLID_ATTRIB_QNAME, "r2")] []]]

/-- A body holding one p that references region "r1". -/
def body_p_region_r1 : XmlElem :=
  .elem BODY_ELEMENT_QNAME []
    [.elem P_ELEMENT_QNAME [("region", "r1")] []]

/-- tt (xml:lang "en") with the head before the body. -/
def tt_head_then_body : XmlElem :=
  .elem TT_ELEMENT_QNAME [(XMLLANG_ATTRIB_QNAME, "en")]
    [head_layout_r1, body_p_region_r1]

/-- tt (xml:lang "en") with the body before the head. -/
def tt_body_then_head : XmlElem :=
  .elem TT_ELEMENT_QNAME [(XMLLANG_ATTRIB_QNAME, "en")]
    [body_p_region_r1, head_layout_r1]

/-- tt (xml:lang "en") with two heads. -/
def tt_two_heads : XmlElem :=
  .elem TT_ELEMENT_QNAME [(XMLLANG_ATTRIB_QNAME, "en")]
    [head_layout_r1, head_layout_r2]

/-- The region "r1" as built under the tt above: inherited space DEFAULT,
inherited lang "en", no styles. -/
def region_r1_en : Region := ⟨"r1", .DEFAULT, "en", []⟩

def region_r2_en : Region := ⟨"r2", .DEFAULT, "en", []⟩

/-- A span element holding a valid p child. -/
def span_with_p : XmlElem :=
  .elem SPAN_ELEMENT_QNAME [] [.elem P_ELEMENT_QNAME [] []]

/-- tt (xml:lang "en") whose body holds an element with an unrecognized
tag which itself holds a valid p. -/
def tt_unknown_wrap : XmlElem :=
  .elem TT_ELEMENT_QNAME [(XMLLANG_ATTRIB_QNAME, "en")]
    [.elem BODY_ELEMENT_QNAME []
      [.elem "\x7bhttp://www.w3.org/ns/ttml\x7dfoo" []
        [.elem P_ELEMENT_QNAME [] []]]]

/-- A layout whose first region has no id and whose second region has
xml:id "r2". -/
def layout_mixed_regions : XmlElem :=
  .elem LAYOUT_ELEMENT_QNAME []
    [.elem REGION_ELEMENT_QNAME [] [],
     .elem REGION_ELEMENT_QNAME [(XMLID_ATTRIB_QNAME, "r2")] []]

/- Helper lemmas. -/

theorem except_bind_ok {α β : Type} (a : α) (f : α → Except String β) :
    (Except.ok a >>= f : Except String β) = f a := rfl

theorem except_bind_error {α β : Type} (e : String)
    (f : α → Except String β) :
    ((Except.error e : Except String α) >>= f) = .error e := rfl

theorem process_content_element_unrecognized (doc : Document)
    (isp : WhiteSpaceHandling) (ilg : String) (tag : String)
    (attrib : List (String × String)) (children : List XmlElem)
    (hk : kind_of_tag tag = none) :
    process_content_element doc isp ilg (.elem tag attrib children) =
      .ok (none, []) := by
  simp only [process_content_element, hk]

/-- C1: a recognized style attribute whose raw text does not conform to
the property's grammar aborts the entire conversion with no document
produced — a p with tts:lineHeight "abc" makes to_model fail entirely,
the extraction failure being caught nowhere between extract and to_model —
whereas "1.2em" yields the Length value with magnitude 6/5 (= 1.2) and
unit em on the p node, with no error and no diagnostic. -/
theorem C1_malformed_style_aborts_conversion :
    StyleProperties.LineHeight.extract "abc" = .error "Unsupported length" ∧
    to_model (tt_lineheight "abc") = .error "Unsupported length" ∧
    StyleProperties.LineHeight.extract "1.2em" = .ok ⟨6/5, .em⟩ ∧
    to_model (tt_lineheight "1.2em") =
      .ok (some ⟨[], some (.node .body
        [.node .p [] none [(.lineHeight, .length ⟨6/5, .em⟩)] none none]
        none [] none none)⟩, []) := by
  refine ⟨rfl, rfl, ?_, ?_⟩
  · show Except.ok (⟨1 * ((1 : ℚ) + 2 / 10 ^ 1), .em⟩ : LengthType) = _
    simp only [Except.ok.injEq, LengthType.mk.injEq]
    exact ⟨by norm_num, trivial⟩
  · show Except.ok (some (⟨[], some (.node .body
        [.node .p [] none
          [(.lineHeight, .length ⟨1 * ((1 : ℚ) + 2 / 10 ^ 1), .em⟩)]
          none none]
        none [] none none)⟩ : Document), ([] : Log)) = _
    simp only [Except.ok.injEq, Prod.mk.injEq, Option.some.injEq,
      Document.mk.injEq, ContentElement.node.injEq, List.cons.injEq,
      Prod.mk.injEq, StyleValue.length.injEq, LengthType.mk.injEq]
    norm_num

/-- C3: region references are resolved at the moment the content element
is visited, against only the regions already in the region map: with the
head before the body, the p's region resolves to r1 with no diagnostic;
with the body before the head, the identical p ends up with no region and
a warning is logged, while r1 still ends up in the region map. -/
theorem C3_region_resolution_at_visit_time :
    to_model tt_head_then_body =
      .ok (some ⟨[("r1", region_r1_en)],
        some (.node .body [.node .p [] (some region_r1_en) [] none none]
          none [] none none)⟩, []) ∧
    to_model tt_body_then_head =
      .ok (some ⟨[("r1", region_r1_en)],
        some (.node .body [.node .p [] none [] none none]
          none [] none none)⟩,
        [⟨.warning, "Element references unknown region"⟩]) :=
  ⟨rfl, rfl⟩

/-- C5: the code diverges from the claim.  A ttp:cellResolution attribute
of "40 24", keyed as a namespace-aware parse produces it, is never found —
the source's lookup key lacks the braces around the namespace — so the
context keeps (32, 15) with no diagnostic instead of becoming (40, 24);
and even under the source's own (braceless) key a match stores the digit
strings "40"/"24", not integers; "bad" under that key logs the error and
keeps the integer defaults; an absent attribute keeps the defaults
silently. -/
theorem C5_cell_resolution_divergence :
    process_cell_resolution init_cell_res
      [(TTP_CELLRESOLUTION_PARSED_QNAME, "40 24")] = (init_cell_res, []) ∧
    process_tt_element (.elem TT_ELEMENT_QNAME
      [(XMLLANG_ATTRIB_QNAME, "en"),
       (TTP_CELLRESOLUTION_PARSED_QNAME, "40 24")] []) =
      .ok (⟨[], none⟩, init_cell_res, []) ∧
    process_cell_resolution init_cell_res
      [(CELLRESOLUTION_ATTRIB_QNAME, "40 24")] =
      (⟨.str "40", .str "24"⟩, []) ∧
    process_cell_resolution init_cell_res
      [(CELLRESOLUTION_ATTRIB_QNAME, "bad")] =
      (init_cell_res, [⟨.error, "ttp:cellResolution invalid syntax"⟩]) ∧
    process_cell_resolution init_cell_res [] = (init_cell_res, []) ∧
    init_cell_res = ⟨.int 32, .int 15⟩ :=
  ⟨rfl, rfl, rfl, rfl, rfl, rfl⟩

/-- C6: whenever the root element's qualified tag is not the tt tag, the
conversion yields no document — only the fatal diagnostic — and no
Document is built for that attempt. -/
theorem C6_root_mismatch_no_document (tag : String)
    (attrib : List (String × String)) (children : List XmlElem)
    (h : tag ≠ TT_ELEMENT_QNAME) :
    to_model (.elem tag attrib children) =
      .ok (none, [⟨.fatal, "A tt element is not the root element"⟩]) := by
  simp [to_model, XmlElem.tag, h]

theorem C6_root_mismatch_no_document_witness :
    to_model (.elem "wrongroot" [] []) =
      .ok (none, [⟨.fatal, "A tt element is not the root element"⟩]) :=
  C6_root_mismatch_no_document "wrongroot" [] [] (by decide)

/-- C9: a region element without an xml:id logs an error and yields none —
no Region is built or inserted — and sibling regions are unaffected: in a
layout with an id-less region followed by region r2, only r2 is inserted
and the error is logged. -/
theorem C9_region_without_id_dropped :
    (∀ (tag : String) (attrib : List (String × String))
      (children : List XmlElem) (isp : WhiteSpaceHandling) (ilg : String),
      get_id attrib = none →
      process_region_element isp ilg (.elem tag attrib children) =
        .ok (none, [⟨.error, "All regions must have an id"⟩])) ∧
    process_layout_element empty_document .DEFAULT "en"
      layout_mixed_regions =
      .ok (⟨[("r2", region_r2_en)], none⟩,
        [⟨.error, "All regions must have an id"⟩]) := by
  constructor
  · intro tag attrib children isp ilg h
    simp [process_region_element, XmlElem.attrib, h]
  · rfl

theorem C9_region_without_id_dropped_witness :
    process_region_element .DEFAULT "en"
      (.elem REGION_ELEMENT_QNAME [] []) =
      .ok (none, [⟨.error, "All regions must have an id"⟩]) :=
  C9_region_without_id_dropped.1 REGION_ELEMENT_QNAME [] [] .DEFAULT "en" rfl

/-- C10: whenever the root's tag is the tt tag and the conversion raises
no style-extraction failure (to_model returns ok), the document option is
some — the Document is created before any child is examined — and an empty
tt yields an empty Document plus only the xml:lang warning. -/
theorem C10_tt_root_yields_document :
    (∀ (attrib : List (String × String)) (children : List XmlElem)
      (d : Option Document) (l : Log),
      to_model (.elem TT_ELEMENT_QNAME attrib children) = .ok (d, l) →
      d.isSome) ∧
    to_model (.elem TT_ELEMENT_QNAME [] []) =
      .ok (some ⟨[], none⟩, [⟨.warning, "xml:lang not specified on tt"⟩]) := by
  constructor
  · intro attrib children d l h
    simp only [to_model, XmlElem.tag, ne_eq, not_true_eq_false,
      if_false, ite_false] at h
    cases hp : process_tt_element (.elem TT_ELEMENT_QNAME attrib children) with
    | error e => rw [hp] at h; exact Except.noConfusion h
    | ok v =>
      rw [hp] at h
      obtain ⟨h1, _⟩ := Prod.mk.injEq .. ▸ Except.ok.inj h
      rw [← h1]
      rfl
  · rfl

theorem C10_tt_root_yields_document_witness :
    (some (⟨[], none⟩ : Document)).isSome = true :=
  C10_tt_root_yields_document.1 [] [] (some ⟨[], none⟩)
    [⟨.warning, "xml:lang not specified on tt"⟩]
    C10_tt_root_yields_document.2

mutual

theorem process_content_element_ignores_inherited (doc : Document)
    (isp isp2 : WhiteSpaceHandling) (ilg ilg2 : String) :
    ∀ e, process_content_element doc isp ilg e =
      process_content_element doc isp2 ilg2 e
  | .elem tag attrib children => by
    simp only [process_content_element]
    rw [process_content_children_ignores_inherited doc isp isp2 ilg ilg2
      children]

theorem process_content_children_ignores_inherited (doc : Document)
    (isp isp2 : WhiteSpaceHandling) (ilg ilg2 : String) :
    ∀ cs, process_content_children doc isp ilg cs =
      process_content_children doc isp2 ilg2 cs
  | [] => rfl
  | c :: cs => by
    simp only [process_content_children]
    rw [process_content_element_ignores_inherited doc isp isp2 ilg ilg2 c,
      process_content_children_ignores_inherited doc isp isp2 ilg ilg2 cs]

end

theorem process_content_element_node_fields (doc : Document)
    (isp : WhiteSpaceHandling) (ilg : String) (e : XmlElem)
    (n : ContentElement) (l : Log)
    (h : process_content_element doc isp ilg e = .ok (some n, l)) :
    n.space = none ∧ n.lang = none ∧
      kind_of_tag e.tag = some n.kind := by
  match e with
  | .elem tag attrib children =>
    simp only [process_content_element] at h
    cases hk : kind_of_tag tag with
    | none => rw [hk] at h; simp at h
    | some k =>
      rw [hk] at h
      cases hc : process_content_children doc isp ilg children with
      | error e1 => rw [hc] at h; simp [except_bind_error] at h
      | ok kids =>
        cases hs : process_style_properties attrib with
        | error e2 => rw [hc, hs] at h; simp [except_bind_ok, except_bind_error] at h
        | ok styles =>
          rw [hc, hs] at h
          simp only [except_bind_ok, Except.ok.injEq, Prod.mk.injEq,
            Option.some.injEq] at h
          obtain ⟨hn, -⟩ := h
          subst hn
          exact ⟨rfl, rfl, by simp [XmlElem.tag, hk, ContentElement.kind]⟩

/-- C2 counterexample: on a body with its own xml:lang "fr" (inherited
lang "en"), the source walker neither passes "fr" down to the p child nor
stores any resolved lang/space on the constructed nodes — both nodes carry
none — while the walker worded as the claim describes it yields nodes
carrying "fr"; the two walkers disagree on this input. -/
theorem C2_inherited_attrs_counterexample :
    process_content_element empty_document .DEFAULT "en" body_lang_fr =
      .ok (some (.node .body [.node .p [] none [] none none]
        none [] none none), []) ∧
    process_content_element_spec empty_document .DEFAULT "en" body_lang_fr =
      .ok (some (.node .body
        [.node .p [] none [] (some .DEFAULT) (some "fr")]
        none [] (some .DEFAULT) (some "fr")), []) ∧
    process_content_element empty_document .DEFAULT "en" body_lang_fr ≠
      process_content_element_spec empty_document .DEFAULT "en"
        body_lang_fr := by
  refine ⟨rfl, rfl, ?_⟩
  intro h
  have h2 := congrArg top_result_lang h
  have h3 : top_result_lang (process_content_element empty_document
    .DEFAULT "en" body_lang_fr) = none := rfl
  have h4 : top_result_lang (process_content_element_spec empty_document
    .DEFAULT "en" body_lang_fr) = some "fr" := rfl
  rw [h3, h4] at h2
  exact Option.noConfusion h2

/-- C2 amended: the content walker passes the received inherited
space/lang to each direct child unchanged — in fact its result does not
depend on them at all — and constructed content nodes carry no resolved
space or lang (both fields none); the own-attribute-if-present-else-
received computation is applied only on the head/layout/region path, where
the built Region does carry own-or-inherited space and lang. -/
theorem C2_inherited_attrs_amended :
    (∀ (doc : Document) (isp isp2 : WhiteSpaceHandling) (ilg ilg2 : String)
      (e : XmlElem),
      process_content_element doc isp ilg e =
        process_content_element doc isp2 ilg2 e) ∧
    (∀ (doc : Document) (isp : WhiteSpaceHandling) (ilg : String)
      (e : XmlElem) (n : ContentElement) (l : Log),
      process_content_element doc isp ilg e = .ok (some n, l) →
      n.space = none ∧ n.lang = none) ∧
    (∀ (isp : WhiteSpaceHandling) (ilg : String) (e : XmlElem)
      (r : Region) (l : Log),
      process_region_element isp ilg e = .ok (some r, l) →
      r.space = (get_xml_space e.attrib).1.getD isp ∧
      r.lang = py_or_lang (get_xml_lang e.attrib) ilg) := by
  refine ⟨?_, ?_, ?_⟩
  · intro doc isp isp2 ilg ilg2 e
    exact process_content_element_ignores_inherited doc isp isp2 ilg ilg2 e
  · intro doc isp ilg e n l h
    exact ⟨(process_content_element_node_fields doc isp ilg e n l h).1,
      (process_content_element_node_fields doc isp ilg e n l h).2.1⟩
  · intro isp ilg e r l h
    simp only [process_region_element] at h
    cases hid : get_id e.attrib with
    | none => rw [hid] at h; simp at h
    | some rid =>
      rw [hid] at h
      cases hs : process_style_properties e.attrib with
      | error e2 => rw [hs] at h; simp [except_bind_error] at h
      | ok styles =>
        rw [hs] at h
        simp only [except_bind_ok, Except.ok.injEq, Prod.mk.injEq,
          Option.some.injEq] at h
        obtain ⟨hr, -⟩ := h
        rw [← hr]
        exact ⟨rfl, rfl⟩

theorem C2_inherited_attrs_amended_witness :
    (process_content_element empty_document .DEFAULT "en" body_lang_fr =
      process_content_element empty_document .PRESERVE "de" body_lang_fr) ∧
    ((ContentElement.node .body [.node .p [] none [] none none]
      none [] none none).space = none ∧
     (ContentElement.node .body [.node .p [] none [] none none]
      none [] none none).lang = none) ∧
    (region_r1_en.space =
      (get_xml_space [(XMLID_ATTRIB_QNAME, "r1")]).1.getD .DEFAULT ∧
     region_r1_en.lang =
      py_or_lang (get_xml_lang [(XMLID_ATTRIB_QNAME, "r1")]) "en") :=
  ⟨C2_inherited_attrs_amended.1 empty_document .DEFAULT .PRESERVE "en" "de"
      body_lang_fr,
   C2_inherited_attrs_amended.2.1 empty_document .DEFAULT "en" body_lang_fr
      (.node .body [.node .p [] none [] none none] none [] none none) []
      rfl,
   C2_inherited_attrs_amended.2.2 .DEFAULT "en"
      (.elem REGION_ELEMENT_QNAME [(XMLID_ATTRIB_QNAME, "r1")] [])
      region_r1_en [] rfl⟩

/-- C4 counterexample: a span element holding a valid p yields none — no
Span node is constructed (the dispatch has no span case) — and end to end
a body holding only that span has no children at all. -/
theorem C4_span_counterexample :
    process_content_element empty_document .DEFAULT "en" span_with_p =
      .ok (none, []) ∧
    to_model (.elem TT_ELEMENT_QNAME [(XMLLANG_ATTRIB_QNAME, "en")]
      [.elem BODY_ELEMENT_QNAME [] [span_with_p]]) =
      .ok (some ⟨[], some (.node .body [] none [] none none)⟩, []) :=
  ⟨rfl, rfl⟩

/-- C4 amended: the walker dispatches on the qualified tag to exactly one
of the three kinds Body, Div, P; a span element — like any element whose
tag is outside these three — yields none immediately with no diagnostic
and without visiting its descendants; every constructed node's kind agrees
with the dispatch of its tag. -/
theorem C4_dispatch_amended :
    (∀ (doc : Document) (isp : WhiteSpaceHandling) (ilg : String)
      (attrib : List (String × String)) (children : List XmlElem),
      process_content_element doc isp ilg
        (.elem SPAN_ELEMENT_QNAME attrib children) = .ok (none, [])) ∧
    (∀ (doc : Document) (isp : WhiteSpaceHandling) (ilg : String)
      (tag : String) (attrib : List (String × String))
      (children : List XmlElem), kind_of_tag tag = none →
      process_content_element doc isp ilg (.elem tag attrib children) =
        .ok (none, [])) ∧
    (∀ (tag : String) (k : ContentKind),
      kind_of_tag tag = some k ↔
        ((tag = BODY_ELEMENT_QNAME ∧ k = .body) ∨
         (tag = DIV_ELEMENT_QNAME ∧ k = .div) ∨
         (tag = P_ELEMENT_QNAME ∧ k = .p))) ∧
    (∀ (doc : Document) (isp : WhiteSpaceHandling) (ilg : String)
      (e : XmlElem) (n : ContentElement) (l : Log),
      process_content_element doc isp ilg e = .ok (some n, l) →
      kind_of_tag e.tag = some n.kind) := by
  have d1 : BODY_ELEMENT_QNAME ≠ DIV_ELEMENT_QNAME := by decide
  have d2 : BODY_ELEMENT_QNAME ≠ P_ELEMENT_QNAME := by decide
  have d3 : DIV_ELEMENT_QNAME ≠ P_ELEMENT_QNAME := by decide
  refine ⟨?_, ?_, ?_, ?_⟩
  · intro doc isp ilg attrib children
    exact process_content_element_unrecognized doc isp ilg
      SPAN_ELEMENT_QNAME attrib children (by decide)
  · intro doc isp ilg tag attrib children hk
    exact process_content_element_unrecognized doc isp ilg tag attrib
      children hk
  · intro tag k
    unfold kind_of_tag
    split_ifs with h1 h2 h3 <;> subst_eqs <;>
      simp_all <;> cases k <;> simp_all
  · intro doc isp ilg e n l h
    exact (process_content_element_node_fields doc isp ilg e n l h).2.2

theorem C4_dispatch_amended_witness :
    process_content_element empty_document .DEFAULT "en"
      (.elem SPAN_ELEMENT_QNAME [] [.elem P_ELEMENT_QNAME [] []]) =
      .ok (none, []) ∧
    process_content_element empty_document .DEFAULT "en"
      (.elem "junk" [] []) = .ok (none, []) ∧
    kind_of_tag BODY_ELEMENT_QNAME = some .body ∧
    kind_of_tag (XmlElem.elem DIV_ELEMENT_QNAME [] []).tag =
      some ContentKind.div :=
  ⟨C4_dispatch_amended.1 empty_document .DEFAULT "en" []
      [.elem P_ELEMENT_QNAME [] []],
   C4_dispatch_amended.2.1 empty_document .DEFAULT "en" "junk" [] []
      (by decide),
   (C4_dispatch_amended.2.2.1 BODY_ELEMENT_QNAME .body).mpr
      (Or.inl ⟨rfl, rfl⟩),
   C4_dispatch_amended.2.2.2 empty_document .DEFAULT "en"
      (.elem DIV_ELEMENT_QNAME [] [])
      (.node .div [] none [] none none) [] rfl⟩

/-- C7: at most one body and one head are accepted per tt root and at most
one layout per head: once a body (head, layout) has been accepted, a
further body (head, layout) child contributes nothing — the walk continues
on the remaining children from an unchanged document — and one error is
logged for it; concretely, of two heads only the first head's region
reaches the Document, with the duplicate-head error logged. -/
theorem C7_first_occurrence_wins :
    (∀ (sp : WhiteSpaceHandling) (lg : String) (hh : Bool) (doc : Document)
      (attrib : List (String × String)) (children cs : List XmlElem),
      process_tt_children sp lg true hh doc
        (.elem BODY_ELEMENT_QNAME attrib children :: cs) =
      Except.map (fun r => (r.1,
        (⟨.error, "More than one body element present"⟩ : LogEntry) :: r.2))
        (process_tt_children sp lg true hh doc cs)) ∧
    (∀ (sp : WhiteSpaceHandling) (lg : String) (hb : Bool) (doc : Document)
      (attrib : List (String × String)) (children cs : List XmlElem),
      process_tt_children sp lg hb true doc
        (.elem HEAD_ELEMENT_QNAME attrib children :: cs) =
      Except.map (fun r => (r.1,
        (⟨.error, "More than one head element present"⟩ : LogEntry) :: r.2))
        (process_tt_children sp lg hb true doc cs)) ∧
    (∀ (hattrib : List (String × String)) (isp : WhiteSpaceHandling)
      (ilg : String) (doc : Document) (attrib : List (String × String))
      (children cs : List XmlElem),
      process_head_children hattrib isp ilg true doc
        (.elem LAYOUT_ELEMENT_QNAME attrib children :: cs) =
      Except.map (fun r => (r.1,
        (⟨.error, "Multiple layout elements"⟩ : LogEntry) :: r.2))
        (process_head_children hattrib isp ilg true doc cs)) ∧
    to_model tt_two_heads =
      .ok (some ⟨[("r1", region_r1_en)], none⟩,
        [⟨.error, "More than one head element present"⟩]) := by
  refine ⟨?_, ?_, ?_, rfl⟩
  · intro sp lg hh doc attrib children cs
    simp only [process_tt_children, XmlElem.tag, if_true]
    cases h : process_tt_children sp lg true hh doc cs <;>
      simp [h, Except.map, except_bind_ok, except_bind_error]
  · intro sp lg hb doc attrib children cs
    simp only [process_tt_children, XmlElem.tag, if_true]
    have hne : HEAD_ELEMENT_QNAME ≠ BODY_ELEMENT_QNAME := by decide
    cases h : process_tt_children sp lg hb true doc cs <;>
      simp [h, Except.map, except_bind_ok, except_bind_error, hne]
  · intro hattrib isp ilg doc attrib children cs
    simp only [process_head_children, XmlElem.tag, if_true]
    cases h : process_head_children hattrib isp ilg true doc cs <;>
      simp [h, Except.map, except_bind_ok, except_bind_error]

/-- C8: unknown-element subtrees are dropped whole and never reparented:
an element with a tag outside the recognized set contributes nothing at
all (its descendants are never visited), and a body holding only an
unrecognized element that itself holds a valid p yields a body with no
children — the p is not promoted. -/
theorem C8_unknown_subtree_dropped :
    (∀ (doc : Document) (isp : WhiteSpaceHandling) (ilg : String)
      (tag : String) (attrib : List (String × String))
      (children : List XmlElem), kind_of_tag tag = none →
      process_content_element doc isp ilg (.elem tag attrib children) =
        .ok (none, [])) ∧
    to_model tt_unknown_wrap =
      .ok (some ⟨[], some (.node .body [] none [] none none)⟩, []) :=
  ⟨fun doc isp ilg tag attrib children hk =>
    process_content_element_unrecognized doc isp ilg tag attrib children hk,
   rfl⟩

theorem C8_unknown_subtree_dropped_witness :
    process_content_element empty_document .DEFAULT "en"
      (.elem "\x7bhttp://www.w3.org/ns/ttml\x7dfoo" []
        [.elem P_ELEMENT_QNAME [] []]) = .ok (none, []) :=
  C8_unknown_subtree_dropped.1 empty_document .DEFAULT "en"
    "\x7bhttp://www.w3.org/ns/ttml\x7dfoo" []
    [.elem P_ELEMENT_QNAME [] []] (by decide)
